import Mathlib

/-!
Verification of the polling-and-caching core of a GitHub usage/billing
metrics exporter.  The definitions below are shallow embeddings of the
Rust source files `src/types.rs`, `src/main.rs`,
`src/tasks/poll_workflows.rs`, `src/tasks/poll_billable_ms.rs` and
`src/tasks/poll_orgs_billing.rs`: strings are `List Char`, the `f64`
gauge values are modelled as rationals, fallible upstream calls are
`Except` values, and the global Prometheus gauge registry is an
association list from (metric name, label values) to the gauge value.
-/

set_option autoImplicit false

namespace GithubExporter

/-- Strings are modelled as lists of characters. -/
abbrev Str := List Char

/-- `src/types.rs`: `pub static UBUNTU: &str = "ubuntu"`. -/
def UBUNTU : Str := "ubuntu".toList

/-- `src/types.rs`: `pub static MACOS: &str = "macos"`. -/
def MACOS : Str := "macos".toList

/-- `src/types.rs`: `pub static WINDOWS: &str = "windows"`. -/
def WINDOWS : Str := "windows".toList

/-- `src/types.rs`: `pub type Organisation = String`. -/
abbrev Organisation := Str

/-- `src/types.rs`: `pub struct Repository { owner, name }`. -/
structure Repository where
  owner : Organisation
  name : Str
  deriving DecidableEq, Repr

/-- Rust `str::split_once(sep)`: splits at the first occurrence of `sep`,
returning the parts before and after it, or `none` when `sep` is absent. -/
def splitOnce (sep : Char) : Str → Option (Str × Str)
  | [] => none
  | c :: rest =>
    if c = sep then some ([], rest)
    else
      match splitOnce sep rest with
      | some (pre, post) => some (c :: pre, post)
      | none => none

/-- `src/types.rs`, `impl FromStr for Repository`: split the input at the
first `/`; failure produces the configuration error message. -/
def Repository.fromStr (s : Str) : Except Str Repository :=
  match splitOnce '/' s with
  | some (owner, name) => .ok { owner := owner, name := name }
  | none => .error "repo must be in format \x7bowner\x7d/\x7bname\x7d!".toList

/-- `src/types.rs`, `impl Display for Repository`: `"{owner}/{name}"`. -/
def Repository.display (r : Repository) : Str :=
  r.owner ++ '/' :: r.name

/-! ### Lemmas about `splitOnce` -/

theorem splitOnce_eq_none {sep : Char} {s : Str} (h : sep ∉ s) :
    splitOnce sep s = none := by
  induction s with
  | nil => rfl
  | cons c rest ih =>
    simp only [List.mem_cons, not_or] at h
    simp only [splitOnce, if_neg (show ¬c = sep from fun hc => h.1 hc.symm),
      ih h.2]

theorem splitOnce_of_mem {sep : Char} {s : Str} (h : sep ∈ s) :
    ∃ pre post, splitOnce sep s = some (pre, post) ∧
      s = pre ++ sep :: post ∧ sep ∉ pre := by
  induction s with
  | nil => cases h
  | cons c rest ih =>
    by_cases hc : c = sep
    · subst hc
      exact ⟨[], rest, by simp [splitOnce], rfl, by simp⟩
    · have hmem : sep ∈ rest := by
        rcases List.mem_cons.mp h with h1 | h1
        · exact absurd h1.symm hc
        · exact h1
      obtain ⟨pre, post, hsp, hs, hnp⟩ := ih hmem
      refine ⟨c :: pre, post, ?_, ?_, ?_⟩
      · simp only [splitOnce, if_neg hc, hsp]
      · simp [hs]
      · simp only [List.mem_cons, not_or]
        exact ⟨fun h1 => hc h1.symm, hnp⟩

theorem splitOnce_first {sep : Char} (pre post : Str) (hnp : sep ∉ pre) :
    splitOnce sep (pre ++ sep :: post) = some (pre, post) := by
  induction pre with
  | nil => simp [splitOnce]
  | cons c rest ih =>
    simp only [List.mem_cons, not_or] at hnp
    simp only [List.cons_append, splitOnce,
      if_neg (show ¬c = sep from fun hc => hnp.1 hc.symm), List.append_eq,
      ih hnp.2]

/-! ### Claims C7, C8, C10: repository identifier parsing -/

/-- C7: for every well-formed string of the form `owner/name` (that is,
every string containing the separator `/`), parsing succeeds and display
formatting round-trips: `display (parse s) = s`. -/
theorem repository_parse_display_roundtrip (s : Str) (h : '/' ∈ s) :
    ∃ r : Repository, Repository.fromStr s = .ok r ∧ r.display = s := by
  obtain ⟨pre, post, hsp, hs, _⟩ := splitOnce_of_mem h
  refine ⟨⟨pre, post⟩, ?_, ?_⟩
  · simp [Repository.fromStr, hsp]
  · simp [Repository.display, hs]

/-- Witness for C7 at the concrete repository string `"acme/widgets"`. -/
theorem repository_parse_display_roundtrip_witness :
    ∃ r : Repository, Repository.fromStr "acme/widgets".toList = .ok r ∧
      r.display = "acme/widgets".toList :=
  repository_parse_display_roundtrip "acme/widgets".toList (by decide)

/-- C8: for every repository string lacking the `/` separator, parsing
fails with the configuration error message. -/
theorem repository_parse_fails_without_separator (s : Str) (h : '/' ∉ s) :
    Repository.fromStr s =
      .error "repo must be in format \x7bowner\x7d/\x7bname\x7d!".toList := by
  simp [Repository.fromStr, splitOnce_eq_none h]

/-- Witness for C8 at the concrete malformed string `"acmewidgets"`. -/
theorem repository_parse_fails_without_separator_witness :
    Repository.fromStr "acmewidgets".toList =
      .error "repo must be in format \x7bowner\x7d/\x7bname\x7d!".toList :=
  repository_parse_fails_without_separator "acmewidgets".toList (by decide)

/-- C10: parsing succeeds exactly when the string contains a `/`, and the
split happens at the first `/` only: for any decomposition
`s = pre ++ '/' :: post` with no `/` in `pre`, the owner is `pre` and the
name is everything after the first separator, `post` — including the cases
of an empty owner, an empty name, and further slashes inside `post`. -/
theorem repository_parse_first_slash (s pre post : Str) :
    ((∃ r, Repository.fromStr s = .ok r) ↔ '/' ∈ s) ∧
      ('/' ∉ pre → s = pre ++ '/' :: post →
        Repository.fromStr s = .ok { owner := pre, name := post }) := by
  constructor
  · constructor
    · rintro ⟨r, hr⟩
      by_contra hmem
      rw [repository_parse_fails_without_separator s hmem] at hr
      cases hr
    · intro hmem
      obtain ⟨r, hr, _⟩ := repository_parse_display_roundtrip s hmem
      exact ⟨r, hr⟩
  · intro hnp hs
    subst hs
    simp [Repository.fromStr, splitOnce_first pre post hnp]

/-- Witness for C10: `"a/b/c"` parses to owner `"a"` and name `"b/c"`,
and the parse-success criterion holds there. -/
theorem repository_parse_first_slash_witness :
    Repository.fromStr "a/b/c".toList =
        .ok { owner := "a".toList, name := "b/c".toList } ∧
      ((∃ r, Repository.fromStr "a/b/c".toList = .ok r) ↔
        '/' ∈ "a/b/c".toList) := by
  have h := repository_parse_first_slash "a/b/c".toList "a".toList "b/c".toList
  exact ⟨h.2 (by decide) (by decide), h.1⟩

/-! ### Workflow cache (`src/types.rs`, `src/main.rs`,
`src/tasks/poll_workflows.rs`) -/

/-- `src/types.rs`: `pub struct Workflow { id: WorkflowId, name: String }`;
the `WorkflowId` newtype wraps an unsigned integer. -/
structure Workflow where
  id : ℕ
  name : Str
  deriving DecidableEq, Repr

/-- An item of the upstream "list workflows" payload (the octocrab
workflow model); the exporter reads only `id` and `name`, `path` stands
for the fields it discards. -/
structure UpstreamWorkflow where
  id : ℕ
  name : Str
  path : Str
  deriving DecidableEq, Repr

/-- `src/tasks/poll_workflows.rs` lines 31-37: project an upstream page
item to the cached `Workflow { id: w.id, name: w.name }`. -/
def Workflow.ofUpstream (w : UpstreamWorkflow) : Workflow :=
  { id := w.id, name := w.name }

/-- The shared `HashMap<Repository, RwLock<Vec<Workflow>>>`, modelled as
an association list; each entry's list is the lock-protected value. -/
abbrev WorkflowCache := List (Repository × List Workflow)

/-- `src/main.rs` lines 123-128: the cache is built once at startup with
one entry per configured repository, each holding an empty list. -/
def github_workflows (repos : List Repository) : WorkflowCache :=
  repos.map (fun r => (r, []))

/-- The key list of the cache. -/
def cacheKeys (c : WorkflowCache) : List Repository :=
  c.map Prod.fst

/-- `src/tasks/poll_workflows.rs` lines 24-29: the upstream call is a
single `.list().per_page(100).send()` request, and `poll_workflow`
iterates only the page it returns — there is no loop over subsequent
pages.  Under the upstream contract, a successful request therefore
yields the first hundred workflows of the repository's full list. -/
def fetch_first_page (upstream : List UpstreamWorkflow) :
    List UpstreamWorkflow :=
  upstream.take 100

/-- `src/tasks/poll_workflows.rs`, `poll_workflow`: the single page
request (`fetch_first_page` of the upstream list when it succeeds)
either yields its page of workflows — in which case the cached list is
replaced wholesale by the projected page — or fails, in which case the
`?` on the fetch returns before the write and the cached list stays. -/
def poll_workflow (fetched : Except Str (List UpstreamWorkflow))
    (old : List Workflow) : List Workflow :=
  match fetched with
  | .ok page => page.map Workflow.ofUpstream
  | .error _ => old

/-- `src/tasks/poll_workflows.rs`, `poll_workflows` loop body: one
Discovery cycle visits every cache entry in iteration order and refreshes
it with that repository's fetch outcome; a failed entry is logged and the
loop continues with the next entry. -/
def poll_workflows_cycle
    (fetch : Repository → Except Str (List UpstreamWorkflow))
    (cache : WorkflowCache) : WorkflowCache :=
  cache.map (fun e => (e.1, poll_workflow (fetch e.1) e.2))

/-- Repeated Discovery cycles, one fetch environment per cycle. -/
def run_discovery
    (fetches : ℕ → Repository → Except Str (List UpstreamWorkflow)) :
    ℕ → WorkflowCache → WorkflowCache
  | 0, c => c
  | n + 1, c => run_discovery fetches n (poll_workflows_cycle (fetches 0) c)

/-! ### Claims C2, C3, C5: Discovery and the cache key set -/

/-- Wholesale replacement relative to the fetch outcome: on a Discovery
tick, a successful fetch for a cache entry replaces that entry's
workflow list with the projection of whatever list the single page
request returned, whatever the entry held before. -/
theorem discovery_success_replaces_wholesale
    (fetch : Repository → Except Str (List UpstreamWorkflow))
    (cache : WorkflowCache) (i : ℕ) (repo : Repository)
    (old : List Workflow) (page : List UpstreamWorkflow)
    (hentry : cache[i]? = some (repo, old))
    (hfetch : fetch repo = .ok page) :
    (poll_workflows_cycle fetch cache)[i]? =
      some (repo, page.map Workflow.ofUpstream) := by
  simp [poll_workflows_cycle, List.getElem?_map, hentry, poll_workflow,
    hfetch]

/-- The repository `"acme/widgets"`, used in concrete witnesses. -/
def acmeWidgets : Repository :=
  { owner := "acme".toList, name := "widgets".toList }

/-- The repository `"acme/gadgets"`, used in concrete witnesses. -/
def acmeGadgets : Repository :=
  { owner := "acme".toList, name := "gadgets".toList }

/-- A stale cached workflow, used in concrete witnesses. -/
def wfOld : Workflow := { id := 1, name := "old".toList }

/-- The cached projection of `upCi`, used in concrete witnesses. -/
def wfCi : Workflow := { id := 42, name := "ci".toList }

/-- A freshly fetched upstream workflow, used in concrete witnesses. -/
def upCi : UpstreamWorkflow :=
  { id := 42, name := "ci".toList, path := "wf.yml".toList }

/-- Another fetched upstream workflow, used in concrete witnesses. -/
def upDeploy : UpstreamWorkflow :=
  { id := 7, name := "deploy".toList, path := "d.yml".toList }

/-- Witness for C2: a one-entry cache holding a stale workflow is
replaced by the freshly fetched page. -/
theorem discovery_success_replaces_wholesale_witness :
    (poll_workflows_cycle (fun _ => .ok [upCi])
        [(acmeWidgets, [wfOld])])[0]? =
      some (acmeWidgets, [wfCi]) :=
  discovery_success_replaces_wholesale _ _ 0 acmeWidgets [wfOld] [upCi]
    rfl rfl

/-- An upstream repository with 101 workflows — one more than fits in
the single requested page. -/
def ex101 : List UpstreamWorkflow :=
  (List.range 101).map
    (fun i => { id := i, name := "wf".toList, path := "p".toList })

/-- Counterexample to C2: against an upstream repository holding 101
workflows, a successful refresh replaces the cache entry with the
projection of the single fetched page — the first 100 workflows — which
is not the complete upstream list: the fetch is not paginated to
completion, so the cache entry does not equal the complete upstream
list. -/
theorem discovery_pagination_counterexample :
    (poll_workflows_cycle (fun _ => .ok (fetch_first_page ex101))
        [(acmeWidgets, [])])[0]? =
      some (acmeWidgets,
        (fetch_first_page ex101).map Workflow.ofUpstream) ∧
      (fetch_first_page ex101).map Workflow.ofUpstream ≠
        ex101.map Workflow.ofUpstream := by
  refine ⟨rfl, fun h => ?_⟩
  have hlen := congrArg List.length h
  simp only [fetch_first_page, ex101, List.length_map, List.length_take,
    List.length_range] at hlen
  omega

/-- C2 amended: on each Discovery tick, a successful refresh issues the
single page request — the first 100 workflows of the upstream list, with
no loop over further pages — and replaces the repository's cached list
wholesale with that page's projection, regardless of prior contents; the
cache entry therefore equals the complete upstream list exactly when the
upstream repository holds at most 100 workflows. -/
theorem discovery_replaces_with_first_page
    (upstream : Repository → List UpstreamWorkflow)
    (cache : WorkflowCache) (i : ℕ) (repo : Repository)
    (old : List Workflow)
    (hentry : cache[i]? = some (repo, old)) :
    (poll_workflows_cycle
        (fun r => .ok (fetch_first_page (upstream r))) cache)[i]? =
      some (repo,
        (fetch_first_page (upstream repo)).map Workflow.ofUpstream) ∧
      ((upstream repo).length ≤ 100 →
        (fetch_first_page (upstream repo)).map Workflow.ofUpstream =
          (upstream repo).map Workflow.ofUpstream) := by
  constructor
  · simp [poll_workflows_cycle, List.getElem?_map, hentry, poll_workflow]
  · intro hle
    rw [fetch_first_page, List.take_of_length_le hle]

/-- Witness for the amended C2: a one-workflow upstream repository fits
in the page, so a stale entry is replaced by exactly the full upstream
projection. -/
theorem discovery_replaces_with_first_page_witness :
    (poll_workflows_cycle (fun _ => .ok (fetch_first_page [upCi]))
        [(acmeWidgets, [wfOld])])[0]? = some (acmeWidgets, [wfCi]) ∧
      (fetch_first_page [upCi]).map Workflow.ofUpstream =
        ([upCi] : List UpstreamWorkflow).map Workflow.ofUpstream := by
  have h := discovery_replaces_with_first_page (fun _ => [upCi])
    [(acmeWidgets, [wfOld])] 0 acmeWidgets [wfOld] rfl
  exact ⟨h.1, h.2 (by decide)⟩

/-- C3: when the fetch for a cache entry fails during a Discovery cycle,
that entry is left unchanged by the cycle, and every other entry whose
fetch succeeds is still refreshed in the same cycle. -/
theorem discovery_failure_leaves_entry_unchanged
    (fetch : Repository → Except Str (List UpstreamWorkflow))
    (cache : WorkflowCache) (i : ℕ) (repo : Repository)
    (old : List Workflow) (e : Str)
    (hentry : cache[i]? = some (repo, old))
    (hfail : fetch repo = .error e) :
    (poll_workflows_cycle fetch cache)[i]? = some (repo, old) ∧
      ∀ (j : ℕ) rj oj page, cache[j]? = some (rj, oj) → fetch rj = .ok page →
        (poll_workflows_cycle fetch cache)[j]? =
          some (rj, page.map Workflow.ofUpstream) := by
  constructor
  · simp [poll_workflows_cycle, List.getElem?_map, hentry, poll_workflow,
      hfail]
  · intro j rj oj page hj hokj
    simp [poll_workflows_cycle, List.getElem?_map, hj, poll_workflow, hokj]

/-- A fetch environment that fails for `"acme/widgets"` and returns the
page `[upDeploy]` for every other repository. -/
def failWidgetsFetch (r : Repository) :
    Except Str (List UpstreamWorkflow) :=
  if r.name = "widgets".toList then .error "HTTP 500".toList
  else .ok [upDeploy]

/-- Witness for C3: in a two-entry cache the failing entry keeps its
stale list while the other entry is refreshed in the same cycle. -/
theorem discovery_failure_leaves_entry_unchanged_witness :
    (poll_workflows_cycle failWidgetsFetch
          [(acmeWidgets, [wfOld]), (acmeGadgets, [])])[0]? =
        some (acmeWidgets, [wfOld]) ∧
      (poll_workflows_cycle failWidgetsFetch
          [(acmeWidgets, [wfOld]), (acmeGadgets, [])])[1]? =
        some (acmeGadgets, [{ id := 7, name := "deploy".toList }]) := by
  have h := discovery_failure_leaves_entry_unchanged failWidgetsFetch
    [(acmeWidgets, [wfOld]), (acmeGadgets, [])] 0 acmeWidgets [wfOld]
    "HTTP 500".toList rfl rfl
  exact ⟨h.1, h.2 1 acmeGadgets [] [upDeploy] rfl rfl⟩

/-- The key list is preserved by one Discovery cycle. -/
theorem cacheKeys_poll_workflows_cycle
    (fetch : Repository → Except Str (List UpstreamWorkflow))
    (cache : WorkflowCache) :
    cacheKeys (poll_workflows_cycle fetch cache) = cacheKeys cache := by
  simp [cacheKeys, poll_workflows_cycle, List.map_map, Function.comp_def]

/-- C5: the cache key set is fixed at startup to exactly the configured
repository list and is preserved by every Discovery cycle, hence by any
number of cycles; the Usage and Billing loops only read the cache (their
embeddings return metrics, not a cache), so no loop ever adds or removes
a key. -/
theorem cache_key_set_fixed (repos : List Repository)
    (fetches : ℕ → Repository → Except Str (List UpstreamWorkflow))
    (n : ℕ) :
    cacheKeys (github_workflows repos) = repos ∧
      (∀ fetch cache,
        cacheKeys (poll_workflows_cycle fetch cache) = cacheKeys cache) ∧
      cacheKeys (run_discovery fetches n (github_workflows repos)) =
        repos := by
  refine ⟨?_, fun fetch cache => cacheKeys_poll_workflows_cycle fetch cache,
    ?_⟩
  · simp [cacheKeys, github_workflows, List.map_map, Function.comp_def]
  · have hstep : ∀ m (fs : ℕ → Repository →
        Except Str (List UpstreamWorkflow)) c,
        cacheKeys (run_discovery fs m c) = cacheKeys c := by
      intro m
      induction m with
      | zero => intro fs c; rfl
      | succ k ih =>
        intro fs c
        rw [run_discovery, ih, cacheKeys_poll_workflows_cycle]
    rw [hstep]
    simp [cacheKeys, github_workflows, List.map_map, Function.comp_def]

/-! ### Claim C4: atomicity of list replacement w.r.t. Usage readers -/

/-- Atomic accesses to one cache entry's `RwLock<Vec<Workflow>>`: a
`write ws` is Discovery's replacement `*w = updated_workflows` performed
under the write lock (`src/tasks/poll_workflows.rs` lines 44-47), and a
`read` is Usage's read-locked snapshot of the list
(`src/tasks/poll_billable_ms.rs` line 16).  The lock makes each access a
single indivisible step, so an interleaving is a sequence of such
actions. -/
inductive CacheAction where
  | write (ws : List Workflow)
  | read
  deriving DecidableEq, Repr

/-- Run an interleaving of lock-atomic accesses against one cache
entry, returning the final list together with every list observed by a
read. -/
def run_cache_trace : List CacheAction → List Workflow →
    List Workflow × List (List Workflow)
  | [], v => (v, [])
  | CacheAction.write ws :: rest, _ => run_cache_trace rest ws
  | CacheAction.read :: rest, v =>
    let r := run_cache_trace rest v
    (r.1, v :: r.2)

/-- C4: in every interleaving of Discovery writes and Usage reads of one
cache entry, each read observes either the initial list or the complete
list of some write in the interleaving — never a partially-written list
or a mix of two replacements. -/
theorem usage_read_observes_complete_list (trace : List CacheAction)
    (init obs : List Workflow)
    (hobs : obs ∈ (run_cache_trace trace init).2) :
    obs = init ∨ CacheAction.write obs ∈ trace := by
  induction trace generalizing init with
  | nil => cases hobs
  | cons a rest ih =>
    cases a with
    | write ws =>
      rcases ih ws hobs with h | h
      · exact Or.inr (by rw [h]; exact List.mem_cons_self _ _)
      · exact Or.inr (List.mem_cons_of_mem _ h)
    | read =>
      rcases List.mem_cons.mp hobs with h | h
      · exact Or.inl h
      · rcases ih init h with h1 | h1
        · exact Or.inl h1
        · exact Or.inr (List.mem_cons_of_mem _ h1)

/-- Witness for C4: a read racing a single replacement observes the new
list, which the theorem resolves to the initial or the written list. -/
theorem usage_read_observes_complete_list_witness :
    ([wfCi] : List Workflow) = [wfOld] ∨
      CacheAction.write [wfCi] ∈
        [CacheAction.write [wfCi], CacheAction.read] :=
  usage_read_observes_complete_list
    [CacheAction.write [wfCi], CacheAction.read] [wfOld] [wfCi]
    (by simp [run_cache_trace])

/-! ### The Prometheus gauge registry, modelled as an association list -/

/-- A metric series identity: metric name plus ordered label values. -/
abbrev MetricKey := String × List Str

/-- The registry state: the current value of every published series. -/
abbrev Metrics := List (MetricKey × ℚ)

/-- `GaugeVec::with_label_values(labels).set(v)`: set the series to `v`,
creating it on first publication. -/
def setGauge (k : MetricKey) (v : ℚ) : Metrics → Metrics
  | [] => [(k, v)]
  | e :: rest => if e.1 = k then (k, v) :: rest else e :: setGauge k v rest

/-- The current value of a series, `none` when never published. -/
def getGauge (st : Metrics) (k : MetricKey) : Option ℚ :=
  match st with
  | [] => none
  | e :: rest => if e.1 = k then some e.2 else getGauge rest k

theorem getGauge_setGauge_self (k : MetricKey) (v : ℚ) (st : Metrics) :
    getGauge (setGauge k v st) k = some v := by
  induction st with
  | nil => simp [setGauge, getGauge]
  | cons e rest ih =>
    by_cases h : e.1 = k <;> simp [setGauge, getGauge, h, ih]

theorem getGauge_setGauge_of_ne {k1 k2 : MetricKey} (h : k1 ≠ k2)
    (v : ℚ) (st : Metrics) :
    getGauge (setGauge k1 v st) k2 = getGauge st k2 := by
  induction st with
  | nil => simp [setGauge, getGauge, h]
  | cons e rest ih =>
    by_cases he : e.1 = k1
    · simp [setGauge, he, getGauge, h, Ne.symm h]
    · by_cases he2 : e.1 = k2 <;>
        simp [setGauge, getGauge, he, he2, ih, h, Ne.symm h]

/-! ### Org billing (`src/tasks/poll_orgs_billing.rs`) -/

/-- `MinutesUsedBreakdown`: optional per-OS minutes in actions billing. -/
structure MinutesUsedBreakdown where
  ubuntu : Option ℚ
  macos : Option ℚ
  windows : Option ℚ
  deriving DecidableEq, Repr

/-- `ActionsBilling`: the decoded actions-billing payload;
`total_paid_minutes_used` arrives as a textual decimal upstream. -/
structure ActionsBilling where
  total_minutes_used : ℚ
  total_paid_minutes_used : ℚ
  included_minutes : ℚ
  minutes_used_breakdown : MinutesUsedBreakdown
  deriving DecidableEq, Repr

/-- `PackagesBilling`: the decoded packages-billing payload. -/
structure PackagesBilling where
  total_gigabytes_bandwidth_used : ℚ
  total_paid_gigabytes_bandwidth_used : ℚ
  included_gigabytes_bandwidth : ℚ
  deriving DecidableEq, Repr

/-- `SharedStorageBilling`: the decoded shared-storage payload. -/
structure SharedStorageBilling where
  days_left_in_billing_cycle : ℚ
  estimated_paid_storage_for_month : ℚ
  estimated_storage_for_month : ℚ
  deriving DecidableEq, Repr

/-- `set_metrics_actions_billing`: the three unconditional gauges in
source order, then one breakdown gauge per present OS class. -/
def set_metrics_actions_billing (org : Organisation) (ab : ActionsBilling)
    (st : Metrics) : Metrics :=
  let st1 := setGauge ("github_org_billing_actions_total_minutes_used",
    [org]) ab.total_minutes_used st
  let st2 := setGauge
    ("github_org_billing_actions_total_paid_minutes_used", [org])
    ab.total_paid_minutes_used st1
  let st3 := setGauge ("github_org_billing_actions_included_minutes",
    [org]) ab.included_minutes st2
  let st4 := match ab.minutes_used_breakdown.ubuntu with
    | some m => setGauge
        ("github_org_billing_actions_minutes_used_breakdown",
          [org, UBUNTU]) m st3
    | none => st3
  let st5 := match ab.minutes_used_breakdown.macos with
    | some m => setGauge
        ("github_org_billing_actions_minutes_used_breakdown",
          [org, MACOS]) m st4
    | none => st4
  match ab.minutes_used_breakdown.windows with
  | some m => setGauge
      ("github_org_billing_actions_minutes_used_breakdown",
        [org, WINDOWS]) m st5
  | none => st5

/-- `set_metrics_packages_billing`, in source order. -/
def set_metrics_packages_billing (org : Organisation)
    (pb : PackagesBilling) (st : Metrics) : Metrics :=
  let st1 := setGauge
    ("github_org_billing_packages_included_gigabytes_bandwidth", [org])
    pb.included_gigabytes_bandwidth st
  let st2 := setGauge
    ("github_org_billing_packages_total_gigabytes_bandwidth_used", [org])
    pb.total_gigabytes_bandwidth_used st1
  setGauge
    ("github_org_billing_packages_total_paid_gigabytes_bandwidth_used",
      [org])
    pb.total_paid_gigabytes_bandwidth_used st2

/-- `set_metrics_shared_storage_billing`, in source order. -/
def set_metrics_shared_storage_billing (org : Organisation)
    (sb : SharedStorageBilling) (st : Metrics) : Metrics :=
  let st1 := setGauge
    ("github_org_billing_shared_storage_days_left_in_billing_cycle",
      [org])
    sb.days_left_in_billing_cycle st
  let st2 := setGauge
    ("github_org_billing_shared_storage_estimated_paid_storage_for_month",
      [org])
    sb.estimated_paid_storage_for_month st1
  setGauge
    ("github_org_billing_shared_storage_estimated_storage_for_month",
      [org])
    sb.estimated_storage_for_month st2

/-- `poll_org_billing`: the three fetches are awaited together, then the
three `set_metrics_*` calls run in order, each behind a `?` on its fetch
result — the first failed result returns early, keeping every gauge
already set.  The boolean is whether the function returned `Ok(())`. -/
def poll_org_billing (org : Organisation)
    (actions_res : Except Str ActionsBilling)
    (packages_res : Except Str PackagesBilling)
    (storage_res : Except Str SharedStorageBilling)
    (st : Metrics) : Metrics × Bool :=
  match actions_res with
  | .error _ => (st, false)
  | .ok ab =>
    let st1 := set_metrics_actions_billing org ab st
    match packages_res with
    | .error _ => (st1, false)
    | .ok pb =>
      let st2 := set_metrics_packages_billing org pb st1
      match storage_res with
      | .error _ => (st2, false)
      | .ok sb => (set_metrics_shared_storage_billing org sb st2, true)

theorem getGauge_set_metrics_actions_billing_total (org : Organisation)
    (ab : ActionsBilling) (st : Metrics) :
    getGauge (set_metrics_actions_billing org ab st)
      ("github_org_billing_actions_total_minutes_used", [org]) =
      some ab.total_minutes_used := by
  unfold set_metrics_actions_billing
  rcases ab.minutes_used_breakdown.ubuntu with _ | u <;>
    rcases ab.minutes_used_breakdown.macos with _ | m <;>
    rcases ab.minutes_used_breakdown.windows with _ | w <;>
    simp [getGauge_setGauge_self, getGauge_setGauge_of_ne]

theorem getGauge_set_metrics_actions_billing_paid (org : Organisation)
    (ab : ActionsBilling) (st : Metrics) :
    getGauge (set_metrics_actions_billing org ab st)
      ("github_org_billing_actions_total_paid_minutes_used", [org]) =
      some ab.total_paid_minutes_used := by
  unfold set_metrics_actions_billing
  rcases ab.minutes_used_breakdown.ubuntu with _ | u <;>
    rcases ab.minutes_used_breakdown.macos with _ | m <;>
    rcases ab.minutes_used_breakdown.windows with _ | w <;>
    simp [getGauge_setGauge_self, getGauge_setGauge_of_ne]

/-! ### Claim C1: partial-failure policy of the Org Billing Loop -/

/-- An example actions-billing payload (`total_minutes_used = 120.5`). -/
def exActions : ActionsBilling :=
  { total_minutes_used := 241 / 2
    total_paid_minutes_used := 20
    included_minutes := 3000
    minutes_used_breakdown :=
      { ubuntu := some 100, macos := none, windows := none } }

/-- An example packages-billing payload. -/
def exPackages : PackagesBilling :=
  { total_gigabytes_bandwidth_used := 5
    total_paid_gigabytes_bandwidth_used := 1
    included_gigabytes_bandwidth := 10 }

/-- An example shared-storage payload. -/
def exStorage : SharedStorageBilling :=
  { days_left_in_billing_cycle := 14
    estimated_paid_storage_for_month := 1
    estimated_storage_for_month := 2 }

/-- Counterexample to C1: with the actions fetch succeeding and the
packages fetch failing, starting from an empty registry, the cycle
nevertheless publishes the organisation's actions total-minutes gauge —
a metric for the organisation changes value although one of the three
billing fetches failed. -/
theorem org_billing_all_or_nothing_counterexample :
    getGauge (poll_org_billing "acme".toList (.ok exActions)
        (.error "HTTP 500".toList) (.ok exStorage) []).1
      ("github_org_billing_actions_total_minutes_used",
        ["acme".toList]) = some (241 / 2) ∧
      getGauge ([] : Metrics)
        ("github_org_billing_actions_total_minutes_used",
          ["acme".toList]) = none :=
  ⟨rfl, rfl⟩

/-- C1 amended: publication is sequential in the order actions, packages,
shared-storage and stops at the first failed fetch.  No metric of the
organisation changes exactly when the actions fetch fails; if actions
succeeds but packages fails, the actions gauges are still published (the
total-minutes gauge observably carries the fresh payload value); all
three categories are published, and the cycle reports success, only when
all three fetches succeed. -/
theorem org_billing_publishes_prefix (org : Organisation)
    (a : Except Str ActionsBilling) (p : Except Str PackagesBilling)
    (s : Except Str SharedStorageBilling) (st : Metrics) :
    (∀ e, a = .error e → poll_org_billing org a p s st = (st, false)) ∧
      (∀ ab e, a = .ok ab → p = .error e →
        poll_org_billing org a p s st =
          (set_metrics_actions_billing org ab st, false)) ∧
      (∀ ab pb e, a = .ok ab → p = .ok pb → s = .error e →
        poll_org_billing org a p s st =
          (set_metrics_packages_billing org pb
            (set_metrics_actions_billing org ab st), false)) ∧
      (∀ ab pb sb, a = .ok ab → p = .ok pb → s = .ok sb →
        poll_org_billing org a p s st =
          (set_metrics_shared_storage_billing org sb
            (set_metrics_packages_billing org pb
              (set_metrics_actions_billing org ab st)), true)) ∧
      (∀ ab e, a = .ok ab → p = .error e →
        getGauge (poll_org_billing org a p s st).1
          ("github_org_billing_actions_total_minutes_used", [org]) =
          some ab.total_minutes_used) := by
  refine ⟨?_, ?_, ?_, ?_, ?_⟩
  · rintro e rfl; rfl
  · rintro ab e rfl rfl; rfl
  · rintro ab pb e rfl rfl rfl; rfl
  · rintro ab pb sb rfl rfl rfl; rfl
  · rintro ab e rfl rfl
    exact getGauge_set_metrics_actions_billing_total org ab st

/-- Witness for the amended C1 at concrete payloads: the
packages-failure case publishes exactly the actions gauges, and the
all-success case publishes all three categories. -/
theorem org_billing_publishes_prefix_witness :
    poll_org_billing "acme".toList (.ok exActions)
        (.error "HTTP 500".toList) (.ok exStorage) [] =
      (set_metrics_actions_billing "acme".toList exActions [], false) ∧
      poll_org_billing "acme".toList (.ok exActions) (.ok exPackages)
        (.ok exStorage) [] =
      (set_metrics_shared_storage_billing "acme".toList exStorage
        (set_metrics_packages_billing "acme".toList exPackages
          (set_metrics_actions_billing "acme".toList exActions [])),
        true) := by
  have h1 := org_billing_publishes_prefix "acme".toList (.ok exActions)
    (.error "HTTP 500".toList) (.ok exStorage) []
  have h2 := org_billing_publishes_prefix "acme".toList (.ok exActions)
    (.ok exPackages) (.ok exStorage) []
  exact ⟨h1.2.1 exActions "HTTP 500".toList rfl rfl,
    h2.2.2.2.1 exActions exPackages exStorage rfl rfl rfl⟩

/-! ### Usage publication (`src/tasks/poll_billable_ms.rs`) -/

/-- `BillableTime`: billable milliseconds for one host class. -/
structure BillableTime where
  total_ms : ℚ
  deriving DecidableEq, Repr

/-- `Billable`: the optional per-host-class figures of a workflow-timing
response. -/
structure Billable where
  ubuntu : Option BillableTime
  macos : Option BillableTime
  windows : Option BillableTime
  deriving DecidableEq, Repr

/-- `Usage`: the decoded workflow-timing payload. -/
structure Usage where
  billable : Billable
  deriving DecidableEq, Repr

/-- `poll_billable_ms_for_workflow`, after a successful fetch: one
gauge per host class present in the response, labelled
`[owner, repository, workflow, os]`; absent classes set nothing. -/
def poll_billable_ms_for_workflow (repo : Repository) (wf : Workflow)
    (usage : Usage) (st : Metrics) : Metrics :=
  let st1 := match usage.billable.ubuntu with
    | some bt => setGauge ("github_actions_billable_ms",
        [repo.owner, repo.name, wf.name, UBUNTU]) bt.total_ms st
    | none => st
  let st2 := match usage.billable.macos with
    | some bt => setGauge ("github_actions_billable_ms",
        [repo.owner, repo.name, wf.name, MACOS]) bt.total_ms st1
    | none => st1
  match usage.billable.windows with
  | some bt => setGauge ("github_actions_billable_ms",
      [repo.owner, repo.name, wf.name, WINDOWS]) bt.total_ms st2
  | none => st2

theorem ubuntu_ne_macos : UBUNTU ≠ MACOS := by decide

theorem ubuntu_ne_windows : UBUNTU ≠ WINDOWS := by decide

theorem macos_ne_windows : MACOS ≠ WINDOWS := by decide

/-- C6: for each host class of a workflow-timing response, if the class
is present its billable milliseconds are published under the
`(owner, repo, workflow, os)` labels, and if it is absent that series is
left exactly as it was — unpublished series stay unpublished rather than
being zeroed. -/
theorem usage_publishes_present_host_classes (repo : Repository)
    (wf : Workflow) (usage : Usage) (st : Metrics) :
    (∀ bt, usage.billable.ubuntu = some bt →
      getGauge (poll_billable_ms_for_workflow repo wf usage st)
        ("github_actions_billable_ms",
          [repo.owner, repo.name, wf.name, UBUNTU]) =
        some bt.total_ms) ∧
      (usage.billable.ubuntu = none →
        getGauge (poll_billable_ms_for_workflow repo wf usage st)
          ("github_actions_billable_ms",
            [repo.owner, repo.name, wf.name, UBUNTU]) =
          getGauge st ("github_actions_billable_ms",
            [repo.owner, repo.name, wf.name, UBUNTU])) ∧
      (∀ bt, usage.billable.macos = some bt →
        getGauge (poll_billable_ms_for_workflow repo wf usage st)
          ("github_actions_billable_ms",
            [repo.owner, repo.name, wf.name, MACOS]) =
          some bt.total_ms) ∧
      (usage.billable.macos = none →
        getGauge (poll_billable_ms_for_workflow repo wf usage st)
          ("github_actions_billable_ms",
            [repo.owner, repo.name, wf.name, MACOS]) =
          getGauge st ("github_actions_billable_ms",
            [repo.owner, repo.name, wf.name, MACOS])) ∧
      (∀ bt, usage.billable.windows = some bt →
        getGauge (poll_billable_ms_for_workflow repo wf usage st)
          ("github_actions_billable_ms",
            [repo.owner, repo.name, wf.name, WINDOWS]) =
          some bt.total_ms) ∧
      (usage.billable.windows = none →
        getGauge (poll_billable_ms_for_workflow repo wf usage st)
          ("github_actions_billable_ms",
            [repo.owner, repo.name, wf.name, WINDOWS]) =
          getGauge st ("github_actions_billable_ms",
            [repo.owner, repo.name, wf.name, WINDOWS])) := by
  have hlab : ∀ x y : Str, x ≠ y →
      (("github_actions_billable_ms",
        [repo.owner, repo.name, wf.name, x]) : MetricKey) ≠
        ("github_actions_billable_ms",
          [repo.owner, repo.name, wf.name, y]) := by
    intro x y hxy h
    apply hxy
    have h2 := congrArg Prod.snd h
    simp only [List.cons.injEq] at h2
    exact h2.2.2.2.1
  have hum := hlab UBUNTU MACOS ubuntu_ne_macos
  have huw := hlab UBUNTU WINDOWS ubuntu_ne_windows
  have hmw := hlab MACOS WINDOWS macos_ne_windows
  rcases hu : usage.billable.ubuntu with _ | u <;>
    rcases hm : usage.billable.macos with _ | m <;>
    rcases hw : usage.billable.windows with _ | w <;>
    refine ⟨fun bt hbt => ?_, fun _ => ?_, fun bt hbt => ?_,
      fun _ => ?_, fun bt hbt => ?_, fun _ => ?_⟩ <;>
    simp_all [poll_billable_ms_for_workflow, getGauge_setGauge_self,
      getGauge_setGauge_of_ne hum, getGauge_setGauge_of_ne hum.symm,
      getGauge_setGauge_of_ne huw, getGauge_setGauge_of_ne huw.symm,
      getGauge_setGauge_of_ne hmw, getGauge_setGauge_of_ne hmw.symm]

/-- Witness for C6, the end-to-end scenario of the specification: a
response with only the first host class (1000 ms) publishes that series
and leaves the other two classes unpublished. -/
theorem usage_publishes_present_host_classes_witness :
    getGauge (poll_billable_ms_for_workflow acmeWidgets wfCi
        { billable :=
          { ubuntu := some { total_ms := 1000 },
            macos := none, windows := none } } [])
      ("github_actions_billable_ms",
        ["acme".toList, "widgets".toList, "ci".toList, UBUNTU]) =
        some 1000 ∧
      getGauge (poll_billable_ms_for_workflow acmeWidgets wfCi
          { billable :=
            { ubuntu := some { total_ms := 1000 },
              macos := none, windows := none } } [])
        ("github_actions_billable_ms",
          ["acme".toList, "widgets".toList, "ci".toList, MACOS]) =
        none := by
  have h := usage_publishes_present_host_classes acmeWidgets wfCi
    { billable :=
      { ubuntu := some { total_ms := 1000 },
        macos := none, windows := none } } []
  exact ⟨h.1 { total_ms := 1000 } rfl, h.2.2.2.1 rfl⟩

/-! ### Claim C9: decoding the actions-billing payload
(`src/tasks/poll_orgs_billing.rs`, the `ActionsBilling` struct with its
`DisplayFromStr` field) -/

/-- A JSON value, as far as the billing payloads need one. -/
inductive Json where
  | num (v : ℚ)
  | str (s : Str)
  | obj (fields : List (Str × Json))
  | nul
  deriving Repr

/-- Look a field up in a JSON object's field list by name. -/
def jsonLookup : List (Str × Json) → Str → Option Json
  | [], _ => none
  | (k, v) :: rest, name =>
    if k = name then some v else jsonLookup rest name

/-- Accumulate the decimal digits of a string into a natural number,
failing on any non-digit. -/
def digitsToNatAux : Str → ℕ → Option ℕ
  | [], acc => some acc
  | c :: rest, acc =>
    if c.isDigit then digitsToNatAux rest (acc * 10 + (c.toNat - 48))
    else none

/-- The value of a non-empty all-digit string. -/
def digitsToNat (s : Str) : Option ℕ :=
  if s = [] then none else digitsToNatAux s 0

/-- Modelled from the spec: the string-to-float coercion applied to
`total_paid_minutes_used` by the `DisplayFromStr` attribute — the float
parser itself (`f64::from_str`) is standard-library code outside this
repository, so the simple decimal forms `digits` and `digits.digits`
the spec exercises are modelled, exactly (`"20.0"` parses to `20`). -/
def parse_decimal (s : Str) : Option ℚ :=
  match splitOnce '.' s with
  | none => (digitsToNat s).map (fun n => (n : ℚ))
  | some (ip, fp) => do
    let i ← digitsToNat ip
    let f ← digitsToNat fp
    pure ((i : ℚ) + (f : ℚ) / (10 ^ fp.length))

/-- Decode a JSON number, as the derived deserialization of an `f64`
field does. -/
def decodeNum (fields : List (Str × Json)) (name : Str) : Option ℚ :=
  match jsonLookup fields name with
  | some (.num v) => some v
  | _ => none

/-- Decode an `Option<f64>` field: absent means `none`, a number means
`some`, anything else is a decode error. -/
def decodeOptNum (fields : List (Str × Json)) (name : Str) :
    Option (Option ℚ) :=
  match jsonLookup fields name with
  | none => some none
  | some (.num v) => some (some v)
  | some _ => none

/-- The derived decoder of `MinutesUsedBreakdown`: three optional
per-OS fields, serde-renamed to upper-case keys. -/
def decode_minutes_used_breakdown : Json → Option MinutesUsedBreakdown
  | .obj fields => do
    let u ← decodeOptNum fields "UBUNTU".toList
    let m ← decodeOptNum fields "MACOS".toList
    let w ← decodeOptNum fields "WINDOWS".toList
    pure { ubuntu := u, macos := m, windows := w }
  | _ => none

/-- The derived decoder of `ActionsBilling`: three `f64` fields — of
which `total_paid_minutes_used` arrives as a JSON string and goes
through the `DisplayFromStr` coercion — plus the nested breakdown. -/
def decode_actions_billing : Json → Option ActionsBilling
  | .obj fields => do
    let tmu ← decodeNum fields "total_minutes_used".toList
    let tpmu ← match jsonLookup fields "total_paid_minutes_used".toList with
      | some (.str s) => parse_decimal s
      | _ => none
    let im ← decodeNum fields "included_minutes".toList
    let mb ← match jsonLookup fields "minutes_used_breakdown".toList with
      | some b => decode_minutes_used_breakdown b
      | none => none
    pure { total_minutes_used := tmu, total_paid_minutes_used := tpmu
           included_minutes := im, minutes_used_breakdown := mb }
  | _ => none

/-- C9: when the actions-billing payload carries
`total_paid_minutes_used` as a textual decimal that parses to `q`,
decoding succeeds, coercing the field to the numeric value `q`, and
publishing the payload sets the organisation's total-paid-minutes gauge
to `q`. -/
theorem actions_billing_textual_decimal_coercion (org : Organisation)
    (s : Str) (q tmu im : ℚ) (st : Metrics)
    (hq : parse_decimal s = some q) :
    decode_actions_billing (.obj
        [("total_minutes_used".toList, .num tmu),
          ("total_paid_minutes_used".toList, .str s),
          ("included_minutes".toList, .num im),
          ("minutes_used_breakdown".toList, .obj [])]) =
      some (ActionsBilling.mk tmu q im
        (MinutesUsedBreakdown.mk none none none)) ∧
      getGauge (set_metrics_actions_billing org
          (ActionsBilling.mk tmu q im
            (MinutesUsedBreakdown.mk none none none)) st)
        ("github_org_billing_actions_total_paid_minutes_used", [org]) =
      some q := by
  constructor
  · have hd : decode_actions_billing (.obj
        [("total_minutes_used".toList, .num tmu),
          ("total_paid_minutes_used".toList, .str s),
          ("included_minutes".toList, .num im),
          ("minutes_used_breakdown".toList, .obj [])]) =
        (parse_decimal s).bind (fun v =>
          some (ActionsBilling.mk tmu v im
            (MinutesUsedBreakdown.mk none none none))) := rfl
    rw [hd, hq]
    rfl
  · exact getGauge_set_metrics_actions_billing_paid org _ st

/-- Witness for C9, the end-to-end scenario of the specification:
`total_minutes_used = 120.5` with `total_paid_minutes_used = "20.0"`
decodes with the paid field coerced to `20`, and the organisation's
total-paid-minutes gauge reads `20` after publication. -/
theorem actions_billing_textual_decimal_coercion_witness :
    decode_actions_billing (.obj
        [("total_minutes_used".toList, .num (241 / 2)),
          ("total_paid_minutes_used".toList, .str "20.0".toList),
          ("included_minutes".toList, .num 3000),
          ("minutes_used_breakdown".toList, .obj [])]) =
      some (ActionsBilling.mk (241 / 2) 20 3000
        (MinutesUsedBreakdown.mk none none none)) ∧
      getGauge (set_metrics_actions_billing "acme".toList
          (ActionsBilling.mk (241 / 2) 20 3000
            (MinutesUsedBreakdown.mk none none none)) [])
        ("github_org_billing_actions_total_paid_minutes_used",
          ["acme".toList]) = some 20 :=
  actions_billing_textual_decimal_coercion "acme".toList "20.0".toList
    20 (241 / 2) 3000 []
    (by simp [parse_decimal, splitOnce, digitsToNat, digitsToNatAux])

end GithubExporter
